import Mathlib

/-!
Verification of the SoftEther-Android connection engine
(`src/main/cpp/softether-native/softether_protocol.c`) against its
natural-language specification.

The C module is embedded shallowly: byte buffers become `List Nat`
(each element a byte value), machine integers become `Nat` with explicit
`% 2 ^ 32` truncation where the C code truncates, fallible functions
return `Option`, and the sequential effect of each C function on the
`se_connection_t` object is explicit state passing.  I/O performed
through the (placeholder) TLS layer is modelled by an environment value
`se_env` that fixes the outcome of each socket operation: the byte
stream the peer delivers and the success of each write.  A read of `k`
bytes in the C code retries on short reads until `k` bytes arrived or a
read returned `0` or an error; on a finite stream this succeeds exactly
when `k` bytes remain, which is how the model decides each read.
-/

namespace SoftEther

/-! ### Constants (softether_protocol.h) -/

def SE_STATE_DISCONNECTED : Nat := 0
def SE_STATE_CONNECTING : Nat := 1
def SE_STATE_CONNECTED : Nat := 2
def SE_STATE_DISCONNECTING : Nat := 3
def SE_STATE_ERROR : Nat := 4

def SE_ERR_SUCCESS : Nat := 0
def SE_ERR_INVALID_PARAM : Nat := 1
def SE_ERR_CONNECT_FAILED : Nat := 2
def SE_ERR_AUTH_FAILED : Nat := 3
def SE_ERR_SSL_HANDSHAKE_FAILED : Nat := 4
def SE_ERR_PROTOCOL_MISMATCH : Nat := 5
def SE_ERR_DHCP_FAILED : Nat := 6
def SE_ERR_TUN_FAILED : Nat := 7
def SE_ERR_TIMEOUT : Nat := 8
def SE_ERR_NETWORK_ERROR : Nat := 9
def SE_ERR_OUT_OF_MEMORY : Nat := 10

def SE_PACKET_TYPE_DATA : Nat := 0x0001
def SE_PACKET_TYPE_CONTROL : Nat := 0x0002
def SE_PACKET_TYPE_KEEPALIVE : Nat := 0x0003
def SE_PACKET_TYPE_AUTH_REQUEST : Nat := 0x0010
def SE_PACKET_TYPE_AUTH_RESPONSE : Nat := 0x0011
def SE_PACKET_TYPE_DHCP_REQUEST : Nat := 0x0020
def SE_PACKET_TYPE_DHCP_RESPONSE : Nat := 0x0021
def SE_PACKET_TYPE_DISCONNECT : Nat := 0x00FF

def SE_MAX_PACKET_SIZE : Nat := 65536

/-! ### Big-endian 32-bit helpers

`be32_bytes n` is the four-byte big-endian encoding the serializer
writes (`(n >> 24) & 0xFF`, ...); `be32_of l` is the value the parsers
compute from the first four bytes of `l`
(`(l[0] << 24) | (l[1] << 16) | (l[2] << 8) | l[3]`, over byte values
the shift-or form equals the arithmetic form used here). -/

def be32_bytes (n : Nat) : List Nat :=
  [n / 2 ^ 24 % 256, n / 2 ^ 16 % 256, n / 2 ^ 8 % 256, n % 256]

def be32_of (l : List Nat) : Nat :=
  ((l.getD 0 0 * 256 + l.getD 1 0) * 256 + l.getD 2 0) * 256 + l.getD 3 0

/-! ### Packet (se_packet_t)

The C struct stores `payload_len` alongside the payload pointer;
`se_packet_new` always sets it to the length of the copied payload, so
the model derives it from the list.  The queue-internal `next` pointer
is not part of the logical value. -/

structure se_packet where
  ptype : Nat
  flags : Nat
  payload : List Nat
deriving DecidableEq, Repr

/-- `se_packet_serialize`: fails (returns -1) exactly when
`buffer_size < 12 + payload_len`; otherwise writes the 12-byte
big-endian header followed by the payload and returns `12 + payload_len`.
The C function performs no payload-length cap check of its own. -/
def se_packet_serialize (packet : se_packet) (buffer_size : Nat) : Option (List Nat) :=
  if buffer_size < 12 + packet.payload.length then none
  else some (be32_bytes packet.ptype ++ be32_bytes packet.flags ++
             be32_bytes packet.payload.length ++ packet.payload)

/-- `se_packet_deserialize`: needs at least 12 bytes, parses the three
big-endian header fields, fails when fewer than `12 + payload_len` bytes
are present, and otherwise copies the payload out. -/
def se_packet_deserialize (data : List Nat) : Option se_packet :=
  if data.length < 12 then none
  else
    let ptype := be32_of data
    let flags := be32_of (data.drop 4)
    let payload_len := be32_of (data.drop 8)
    if data.length < 12 + payload_len then none
    else some ⟨ptype, flags, (data.drop 12).take payload_len⟩

/-! ### Packet queue (se_packet_queue_t)

The linked list with `head`/`tail`/`count` is modelled as the list of
queued packets in FIFO order.  Only the sequential, non-blocking calls
(`blocking == false`, the mode every claim uses) are modelled: a
blocking call that would suspend has no sequential meaning. -/

structure se_packet_queue where
  items : List se_packet
  max_size : Nat
deriving DecidableEq, Repr

/-- `se_packet_queue_new`: empty queue; a zero requested size falls back
to the default capacity 100. -/
def se_packet_queue_new (max_size : Nat) : se_packet_queue :=
  ⟨[], if max_size > 0 then max_size else 100⟩

/-- `se_packet_queue_push` with `blocking == false`: returns -1 (here
`none`) when `count >= max_size`, leaving the queue unchanged,
otherwise appends at the tail. -/
def se_packet_queue_push (queue : se_packet_queue) (packet : se_packet) :
    Option se_packet_queue :=
  if queue.items.length ≥ queue.max_size then none
  else some ⟨queue.items ++ [packet], queue.max_size⟩

/-- `se_packet_queue_pop` with `blocking == false`: returns `NULL`
(here `none`) on an empty queue, otherwise detaches the head. -/
def se_packet_queue_pop (queue : se_packet_queue) :
    Option (se_packet × se_packet_queue) :=
  match queue.items with
  | [] => none
  | p :: rest => some (p, ⟨rest, queue.max_size⟩)

/-- Sequence of non-blocking pushes; `none` as soon as one fails. -/
def se_packet_queue_push_all (queue : se_packet_queue) :
    List se_packet → Option se_packet_queue
  | [] => some queue
  | p :: ps =>
    match se_packet_queue_push queue p with
    | none => none
    | some q2 => se_packet_queue_push_all q2 ps

/-- Sequence of `n` non-blocking pops; `none` as soon as one fails. -/
def se_packet_queue_pop_all (queue : se_packet_queue) :
    Nat → Option (List se_packet × se_packet_queue)
  | 0 => some ([], queue)
  | n + 1 =>
    match se_packet_queue_pop queue with
    | none => none
    | some (p, q2) =>
      match se_packet_queue_pop_all q2 n with
      | none => none
      | some (ps, q3) => some (p :: ps, q3)

/-! ### Connection object (se_connection_t)

Fields the claims observe.  `socket_fd`/`tun_fd` use `Option Nat` for
the C convention "`-1` means absent"; `ssl_ctx` records whether an SSL
context is attached.  Mutex/condvar, thread handles, callbacks and the
two queue pointers carry no sequential value and are omitted; the
queues are passed to the operations that use them. -/

structure se_connection_params where
  server_host : List Nat
  server_port : Nat
  hub_name : List Nat
  username : List Nat
  password : List Nat
  use_encrypt : Bool
  use_compress : Bool
  verify_server_cert : Bool
  mtu : Nat
deriving DecidableEq, Repr

structure se_network_config where
  client_ip : Nat
  subnet_mask : Nat
  gateway : Nat
  dns1 : Nat
  dns2 : Nat
  dhcp_server : Nat
  lease_time : Nat
deriving DecidableEq, Repr

structure se_statistics where
  bytes_sent : Nat
  bytes_received : Nat
  packets_sent : Nat
  packets_received : Nat
  errors : Nat
  start_time_ms : Nat
deriving DecidableEq, Repr

structure se_connection where
  state : Nat
  last_error : Nat
  socket_fd : Option Nat
  ssl_ctx : Bool
  params : se_connection_params
  net_config : se_network_config
  tun_fd : Option Nat
  threads_running : Bool
  stats : se_statistics
  session_id : List Nat
  session_key : Nat
  server_version : Nat
  server_build : Nat
deriving DecidableEq, Repr

/-- `se_connection_new`: `calloc` zeroes every field; then state is set
to `DISCONNECTED` (= 0), `socket_fd` and `tun_fd` to -1, and the random
session id and key are generated (here passed in, as the model draws no
randomness). -/
def se_connection_new (session_id : List Nat) (session_key : Nat) : se_connection where
  state := SE_STATE_DISCONNECTED
  last_error := SE_ERR_SUCCESS
  socket_fd := none
  ssl_ctx := false
  params := ⟨[], 0, [], [], [], false, false, false, 0⟩
  net_config := ⟨0, 0, 0, 0, 0, 0, 0⟩
  tun_fd := none
  threads_running := false
  stats := ⟨0, 0, 0, 0, 0, 0⟩
  session_id := session_id
  session_key := session_key
  server_version := 0
  server_build := 0

/-- Environment fixing the outcome of every I/O step `se_connection_connect`
performs: the file descriptor `resolve_and_connect` yields (or `none` for
failure), whether `ssl_context_new` allocates, whether each of the three
protocol writes transmits fully, the byte stream the peer delivers, and
the clock value read when the threads start.  The placeholder
`ssl_handshake` in the source always succeeds, so it has no knob here. -/
structure se_env where
  tcp_fd : Option Nat
  ssl_ctx_ok : Bool
  send_hello_ok : Bool
  send_auth_ok : Bool
  send_dhcp_ok : Bool
  stream : List Nat
  now_ms : Nat
deriving DecidableEq, Repr

/-! ### Handshake receive phases -/

/-- `se_protocol_recv_hello`: reads exactly 64 bytes (fails when the
stream ends first), verifies the `S T V P` signature byte by byte, and
captures the server version pair from bytes 4..8.  Returns the updated
connection and the unconsumed stream. -/
def se_protocol_recv_hello (conn : se_connection) (stream : List Nat) :
    Option (se_connection × List Nat) :=
  if ¬ conn.ssl_ctx then none
  else if stream.length < 64 then none
  else if stream.getD 0 0 ≠ 83 ∨ stream.getD 1 0 ≠ 84 ∨
          stream.getD 2 0 ≠ 86 ∨ stream.getD 3 0 ≠ 80 then none
  else
    some ({conn with
            server_version := stream.getD 4 0 * 256 + stream.getD 5 0,
            server_build := stream.getD 6 0 * 256 + stream.getD 7 0},
          stream.drop 64)

/-- `se_protocol_recv_auth_response`: reads a 12-byte header, requires
type `AUTH_RESPONSE`, reads the payload when `payload_len > 0` and
requires its first big-endian word (the auth result) to be zero.
Returns the unconsumed stream. -/
def se_protocol_recv_auth_response (stream : List Nat) : Option (List Nat) :=
  if stream.length < 12 then none
  else
    let ptype := be32_of stream
    let payload_len := be32_of (stream.drop 8)
    if ptype ≠ SE_PACKET_TYPE_AUTH_RESPONSE then none
    else
      let rest := stream.drop 12
      if payload_len > 0 then
        if rest.length < payload_len then none
        else if be32_of rest ≠ 0 then none
        else some (rest.drop payload_len)
      else some rest

/-- `se_protocol_recv_dhcp_response`: reads a 12-byte header, requires
type `DHCP_RESPONSE`; only when `payload_len >= 24` does it read the
payload and store its first four big-endian words as client IP, subnet
mask, gateway and primary DNS — otherwise it succeeds without reading
or storing anything. -/
def se_protocol_recv_dhcp_response (conn : se_connection) (stream : List Nat) :
    Option (se_connection × List Nat) :=
  if ¬ conn.ssl_ctx then none
  else if stream.length < 12 then none
  else
    let ptype := be32_of stream
    let payload_len := be32_of (stream.drop 8)
    if ptype ≠ SE_PACKET_TYPE_DHCP_RESPONSE then none
    else
      let rest := stream.drop 12
      if payload_len ≥ 24 then
        if rest.length < payload_len then none
        else
          let payload := rest.take payload_len
          some ({conn with net_config :=
                  {conn.net_config with
                    client_ip := be32_of payload,
                    subnet_mask := be32_of (payload.drop 4),
                    gateway := be32_of (payload.drop 8),
                    dns1 := be32_of (payload.drop 12)}},
                rest.drop payload_len)
      else some (conn, rest)

/-! ### connect / disconnect / accessors -/

/-- The `connect_failed:` label of `se_connection_connect`: free the SSL
context, close the socket, set state `ERROR` and last error
`PROTOCOL_MISMATCH`, and return `PROTOCOL_MISMATCH`. -/
def connect_failed_result (conn : se_connection) : Nat × se_connection :=
  (SE_ERR_PROTOCOL_MISMATCH,
   {conn with ssl_ctx := false, socket_fd := none,
              state := SE_STATE_ERROR, last_error := SE_ERR_PROTOCOL_MISMATCH})

/-- `se_connection_connect`: rejects any state other than
`DISCONNECTED` without touching the connection; then walks
TCP → SSL → hello → auth → DHCP, mapping each failure to its error code
and state `ERROR`, and on success starts the threads and sets state
`CONNECTED` (leaving `last_error` untouched).  The auth and DHCP
failure paths of the source set state and error but do not close the
socket; only the `connect_failed:` label does. -/
def se_connection_connect (conn : se_connection) (params : se_connection_params)
    (env : se_env) : Nat × se_connection :=
  if conn.state ≠ SE_STATE_DISCONNECTED then (SE_ERR_INVALID_PARAM, conn)
  else
    let conn1 := {conn with state := SE_STATE_CONNECTING, params := params}
    match env.tcp_fd with
    | none =>
      (SE_ERR_CONNECT_FAILED,
       {conn1 with state := SE_STATE_ERROR, last_error := SE_ERR_CONNECT_FAILED})
    | some fd =>
      let conn2 := {conn1 with socket_fd := some fd}
      if ¬ env.ssl_ctx_ok then
        (SE_ERR_OUT_OF_MEMORY,
         {conn2 with socket_fd := none, state := SE_STATE_ERROR,
                     last_error := SE_ERR_OUT_OF_MEMORY})
      else
        -- the placeholder ssl_handshake always succeeds
        let conn3 := {conn2 with ssl_ctx := true}
        if ¬ env.send_hello_ok then connect_failed_result conn3
        else
          match se_protocol_recv_hello conn3 env.stream with
          | none => connect_failed_result conn3
          | some (conn4, rest1) =>
            if ¬ env.send_auth_ok then connect_failed_result conn4
            else
              match se_protocol_recv_auth_response rest1 with
              | none =>
                (SE_ERR_AUTH_FAILED,
                 {conn4 with state := SE_STATE_ERROR, last_error := SE_ERR_AUTH_FAILED})
              | some rest2 =>
                if ¬ env.send_dhcp_ok then connect_failed_result conn4
                else
                  match se_protocol_recv_dhcp_response conn4 rest2 with
                  | none =>
                    (SE_ERR_DHCP_FAILED,
                     {conn4 with state := SE_STATE_ERROR, last_error := SE_ERR_DHCP_FAILED})
                  | some (conn5, _) =>
                    (SE_ERR_SUCCESS,
                     {conn5 with
                       threads_running := true,
                       stats := {conn5.stats with start_time_ms := env.now_ms},
                       state := SE_STATE_CONNECTED})

/-- `se_connection_disconnect`: a no-op when already `DISCONNECTED` or
`DISCONNECTING`; otherwise sets `DISCONNECTING`, clears the run flag,
writes one serialized `DISCONNECT` frame when an SSL context is
attached, joins the threads, frees the SSL context, closes the socket
and settles in `DISCONNECTED`.  The second component lists the frames
written to the TLS stream. -/
def se_connection_disconnect (conn : se_connection) :
    se_connection × List (List Nat) :=
  if conn.state = SE_STATE_DISCONNECTED ∨ conn.state = SE_STATE_DISCONNECTING then
    (conn, [])
  else
    let conn1 := {conn with state := SE_STATE_DISCONNECTING, threads_running := false}
    let frames :=
      if conn1.ssl_ctx then
        match se_packet_serialize ⟨SE_PACKET_TYPE_DISCONNECT, 0, []⟩ 64 with
        | some buf => [buf]
        | none => []
      else []
    ({conn1 with ssl_ctx := false, socket_fd := none,
                 state := SE_STATE_DISCONNECTED}, frames)

/-- `se_connection_get_last_error` (the `conn == NULL` guard has no
counterpart for a by-value model). -/
def se_connection_get_last_error (conn : se_connection) : Nat :=
  conn.last_error

/-- `se_connection_send_packet`: rejects an empty input, wraps the whole
input in a single `DATA` packet and pushes it non-blocking onto the send
queue; a full queue frees the packet and reports failure.  Returns the C
result (`0` ok, `-1` error) and the resulting send queue. -/
def se_connection_send_packet (send_queue : se_packet_queue) (data : List Nat) :
    Int × se_packet_queue :=
  if data.length = 0 then (-1, send_queue)
  else
    match se_packet_queue_push send_queue ⟨SE_PACKET_TYPE_DATA, 0, data⟩ with
    | some q2 => (0, q2)
    | none => (-1, send_queue)

/-! ### Ingress task (se_recv_thread)

Modelled for a run in which the cancellation flag stays set (no
concurrent `disconnect`), over the finite byte stream the TLS layer
delivers; the stream ending mid-read is the read that returns 0.  The
`fuel` argument only bounds the recursion; every claim is either
fuel-generic or instantiated with ample fuel. -/

inductive RecvExit where
  | halted
  | headerFail
  | payloadFail
  | disconnected
  | fuelOut
deriving DecidableEq, Repr

/-- One run of the `se_recv_thread` loop.  A failed header read sets
state `ERROR` / `NETWORK_ERROR` before exiting; a failed payload read
exits directly (the source's `goto recv_thread_exit` without the state
update); a `DISCONNECT` frame exits directly; `DATA` frames are written
to the tunnel descriptor (collected in the middle component) with the
receive counters updated; `KEEPALIVE` and unknown kinds are dropped. -/
def se_recv_loop (fuel : Nat) (stream : List Nat) (conn : se_connection) :
    se_connection × List (List Nat) × RecvExit :=
  match fuel with
  | 0 => (conn, [], RecvExit.fuelOut)
  | fuel + 1 =>
    if ¬ conn.threads_running then (conn, [], RecvExit.halted)
    else if stream.length < 12 then
      ({conn with state := SE_STATE_ERROR, last_error := SE_ERR_NETWORK_ERROR},
       [], RecvExit.headerFail)
    else
      let ptype := be32_of stream
      let payload_len := be32_of (stream.drop 8)
      let rest := stream.drop 12
      if rest.length < payload_len then (conn, [], RecvExit.payloadFail)
      else
        let payload := rest.take payload_len
        let rest2 := rest.drop payload_len
        if ptype = SE_PACKET_TYPE_DATA then
          match conn.tun_fd with
          | some _ =>
            let conn2 := {conn with stats :=
              {conn.stats with
                bytes_received := conn.stats.bytes_received + payload_len,
                packets_received := conn.stats.packets_received + 1}}
            let r := se_recv_loop fuel rest2 conn2
            (r.1, payload :: r.2.1, r.2.2)
          | none => se_recv_loop fuel rest2 conn
        else if ptype = SE_PACKET_TYPE_KEEPALIVE then se_recv_loop fuel rest2 conn
        else if ptype = SE_PACKET_TYPE_DISCONNECT then
          (conn, [], RecvExit.disconnected)
        else se_recv_loop fuel rest2 conn

/-! ### Concrete fixtures used by witnesses and counterexamples -/

/-- Connection parameters of a test run (`h`, port 443, hub `H`,
user `u`, password `p`). -/
def test_params : se_connection_params :=
  ⟨[104], 443, [72], [117], [112], true, false, false, 1500⟩

/-- A freshly created connection (all-zero session id and key). -/
def test_conn : se_connection := se_connection_new (List.replicate 16 0) 0

/-- Environment whose TCP connect fails. -/
def env_fail : se_env := ⟨none, true, true, true, true, [], 0⟩

/-- A server byte stream that carries the whole handshake to success:
a valid `S T V P` hello response, an `AUTH_RESPONSE` with zero status,
and an empty `DHCP_RESPONSE`. -/
def good_stream : List Nat :=
  [83, 84, 86, 80] ++ List.replicate 60 0 ++
  [0, 0, 0, 0x11, 0, 0, 0, 0, 0, 0, 0, 4] ++ [0, 0, 0, 0] ++
  [0, 0, 0, 0x21, 0, 0, 0, 0, 0, 0, 0, 0]

/-- Environment in which every step succeeds. -/
def env_ok : se_env := ⟨some 5, true, true, true, true, good_stream, 1234⟩

/-- Environment whose hello response opens with `X T V P`. -/
def env_xtvp : se_env :=
  ⟨some 7, true, true, true, true, 88 :: 84 :: 86 :: 80 :: List.replicate 60 0, 0⟩

/-- A connection in steady state: connected, SSL attached, threads
running, tunnel descriptor present. -/
def conn_connected : se_connection :=
  {test_conn with state := SE_STATE_CONNECTED, ssl_ctx := true,
                  threads_running := true, tun_fd := some 7}

/-- A disconnected connection still carrying a failed connect's error. -/
def conn_err2 : se_connection := {test_conn with last_error := SE_ERR_CONNECT_FAILED}

/-- A fresh connection with an SSL context attached (as in mid-handshake). -/
def conn_ssl : se_connection := {test_conn with ssl_ctx := true}

/-- The spec's DHCP example payload (client 10.0.0.2, mask
255.255.255.0, gateway 10.0.0.1, DNS 8.8.8.8) padded to the 24 bytes
the parser requires. -/
def payload24 : List Nat :=
  [10, 0, 0, 2, 255, 255, 255, 0, 10, 0, 0, 1, 8, 8, 8, 8, 0, 0, 0, 0, 0, 0, 0, 0]

end SoftEther

namespace SoftEther

/-! ## Helper lemmas -/

/-- Parsing the four bytes the serializer wrote recovers the value. -/
theorem be32_of_be32_bytes_append (n : Nat) (l : List Nat) (h : n < 2 ^ 32) :
    be32_of (be32_bytes n ++ l) = n := by
  simp only [be32_bytes, List.cons_append, List.nil_append, be32_of,
    List.getD_cons_zero, List.getD_cons_succ]
  omega

theorem be32_bytes_length (n : Nat) : (be32_bytes n).length = 4 := by
  simp [be32_bytes]

/-- Deserializing a serialized frame recovers the packet. -/
theorem se_packet_deserialize_encode (t f : Nat) (payload : List Nat)
    (ht : t < 2 ^ 32) (hf : f < 2 ^ 32) (hl : payload.length < 2 ^ 32) :
    se_packet_deserialize
      (be32_bytes t ++ be32_bytes f ++ be32_bytes payload.length ++ payload) =
      some ⟨t, f, payload⟩ := by
  have hT : ((t / 2 ^ 24 % 256 * 256 + t / 2 ^ 16 % 256) * 256 +
      t / 2 ^ 8 % 256) * 256 + t % 256 = t := by omega
  have hF : ((f / 2 ^ 24 % 256 * 256 + f / 2 ^ 16 % 256) * 256 +
      f / 2 ^ 8 % 256) * 256 + f % 256 = f := by omega
  have hL : ((payload.length / 2 ^ 24 % 256 * 256 + payload.length / 2 ^ 16 % 256) * 256 +
      payload.length / 2 ^ 8 % 256) * 256 + payload.length % 256 = payload.length := by
    omega
  simp only [be32_bytes, List.cons_append, List.nil_append, se_packet_deserialize,
    List.length_cons, be32_of, List.getD_cons_zero, List.getD_cons_succ,
    List.drop_succ_cons, List.drop_zero, hT, hF, hL, List.take_length]
  rw [if_neg (by omega), if_neg (by omega)]

/-- Non-blocking pushes of a whole list succeed when it fits, appending
the list in order. -/
theorem se_packet_queue_push_all_fits (xs : List se_packet) :
    ∀ q : se_packet_queue, q.items.length + xs.length ≤ q.max_size →
      se_packet_queue_push_all q xs = some ⟨q.items ++ xs, q.max_size⟩ := by
  induction xs with
  | nil => intro q _; simp [se_packet_queue_push_all]
  | cons p ps ih =>
    intro q hfit
    have hlt : q.items.length < q.max_size := by
      simp [List.length_cons] at hfit; omega
    have hpush : se_packet_queue_push q p = some ⟨q.items ++ [p], q.max_size⟩ := by
      simp [se_packet_queue_push, Nat.not_le.mpr hlt]
    have hrec := ih ⟨q.items ++ [p], q.max_size⟩
      (by simp [List.length_append] at hfit ⊢; omega)
    simp only [se_packet_queue_push_all, hpush, hrec, List.append_assoc,
      List.singleton_append]

/-- The serializer reports failure exactly when the buffer is short. -/
theorem se_packet_serialize_eq_none_iff (p : se_packet) (buffer_size : Nat) :
    se_packet_serialize p buffer_size = none ↔
      buffer_size < 12 + p.payload.length := by
  unfold se_packet_serialize
  split <;> simp_all

/-- A non-empty input sent through a queue with room is enqueued whole
as one `DATA` packet. -/
theorem se_connection_send_packet_room (q : se_packet_queue) (data : List Nat)
    (hne : data.length ≠ 0) (hroom : q.items.length < q.max_size) :
    se_connection_send_packet q data =
      (0, ⟨q.items ++ [⟨SE_PACKET_TYPE_DATA, 0, data⟩], q.max_size⟩) := by
  unfold se_connection_send_packet se_packet_queue_push
  rw [if_neg hne, if_neg (Nat.not_le.mpr hroom)]

/-- A hello response whose four signature bytes are not `S T V P` is
rejected. -/
theorem se_protocol_recv_hello_mismatch (conn : se_connection) (stream : List Nat)
    (h : stream.getD 0 0 ≠ 83 ∨ stream.getD 1 0 ≠ 84 ∨
         stream.getD 2 0 ≠ 86 ∨ stream.getD 3 0 ≠ 80) :
    se_protocol_recv_hello conn stream = none := by
  unfold se_protocol_recv_hello
  repeat' split
  all_goals rfl

/-- `disconnect` on a connection already disconnected or disconnecting
is the identity and writes nothing. -/
theorem se_connection_disconnect_noop (conn : se_connection)
    (h : conn.state = SE_STATE_DISCONNECTED ∨ conn.state = SE_STATE_DISCONNECTING) :
    se_connection_disconnect conn = (conn, []) := by
  unfold se_connection_disconnect
  rw [if_pos h]

/-- `disconnect` on a connection in any other state tears everything
down and writes exactly one `DISCONNECT` frame when an SSL context is
attached. -/
theorem se_connection_disconnect_active (conn : se_connection)
    (h : ¬ (conn.state = SE_STATE_DISCONNECTED ∨ conn.state = SE_STATE_DISCONNECTING)) :
    se_connection_disconnect conn =
      ({conn with threads_running := false, ssl_ctx := false, socket_fd := none,
                  state := SE_STATE_DISCONNECTED},
       if conn.ssl_ctx then [[0, 0, 0, 255, 0, 0, 0, 0, 0, 0, 0, 0]] else []) := by
  unfold se_connection_disconnect
  rw [if_neg h]
  rfl

/-- The hello phase only records the server version pair: the last
error survives it. -/
theorem se_protocol_recv_hello_last_error (c c' : se_connection) (s r : List Nat)
    (h : se_protocol_recv_hello c s = some (c', r)) :
    c'.last_error = c.last_error := by
  unfold se_protocol_recv_hello at h
  split_ifs at h
  simp only [Option.some.injEq, Prod.mk.injEq] at h
  rw [← h.1]

/-- The DHCP phase only records the network configuration: the last
error survives it. -/
theorem se_protocol_recv_dhcp_last_error (c c' : se_connection) (s r : List Nat)
    (h : se_protocol_recv_dhcp_response c s = some (c', r)) :
    c'.last_error = c.last_error := by
  unfold se_protocol_recv_dhcp_response at h
  dsimp only at h
  split_ifs at h
  all_goals
    simp only [Option.some.injEq, Prod.mk.injEq] at h
  all_goals rw [← h.1]

/-- `disconnect` never touches the last error. -/
theorem se_connection_disconnect_last_error (c : se_connection) :
    (se_connection_disconnect c).1.last_error = c.last_error := by
  unfold se_connection_disconnect
  split
  · rfl
  · rfl

/-- Popping as many packets as are queued drains the queue in FIFO
order. -/
theorem se_packet_queue_pop_all_drains (xs : List se_packet) :
    ∀ cap : Nat, se_packet_queue_pop_all ⟨xs, cap⟩ xs.length = some (xs, ⟨[], cap⟩) := by
  induction xs with
  | nil => intro cap; simp [se_packet_queue_pop_all]
  | cons p ps ih =>
    intro cap
    simp [se_packet_queue_pop_all, se_packet_queue_pop, ih cap]

/-! ## Claims -/

/-- Claim C1: serializing a packet whose fields fit their 32-bit slots
and whose payload is at most 65,536 bytes long, into a buffer of
sufficient size, yields exactly `12 + payload length` bytes — the
big-endian encodings of kind, flags and payload length followed by the
payload — and deserializing that byte sequence recovers the original
`(kind, flags, payload)` triple. -/
theorem C1_serialize_roundtrip (p : se_packet) (buffer_size : Nat)
    (htype : p.ptype < 2 ^ 32) (hflags : p.flags < 2 ^ 32)
    (hlen : p.payload.length ≤ 65536) (hbuf : 12 + p.payload.length ≤ buffer_size) :
    se_packet_serialize p buffer_size =
      some (be32_bytes p.ptype ++ be32_bytes p.flags ++
            be32_bytes p.payload.length ++ p.payload) ∧
    (be32_bytes p.ptype ++ be32_bytes p.flags ++
      be32_bytes p.payload.length ++ p.payload).length = 12 + p.payload.length ∧
    se_packet_deserialize
      (be32_bytes p.ptype ++ be32_bytes p.flags ++
       be32_bytes p.payload.length ++ p.payload) = some p := by
  have hlen32 : p.payload.length < 2 ^ 32 := by omega
  refine ⟨?_, ?_, ?_⟩
  · simp [se_packet_serialize, Nat.not_lt.mpr hbuf]
  · simp [be32_bytes]; omega
  · exact se_packet_deserialize_encode p.ptype p.flags p.payload htype hflags hlen32

/-- Witness for C1: the spec's concrete example, `kind = 0x0001`,
`flags = 0`, payload `DE AD BE EF`, serialized into 16 bytes and
recovered. -/
theorem C1_witness :
    se_packet_serialize ⟨1, 0, [222, 173, 190, 239]⟩ 16 =
      some [0, 0, 0, 1, 0, 0, 0, 0, 0, 0, 0, 4, 222, 173, 190, 239] ∧
    se_packet_deserialize [0, 0, 0, 1, 0, 0, 0, 0, 0, 0, 0, 4, 222, 173, 190, 239] =
      some ⟨1, 0, [222, 173, 190, 239]⟩ := by
  have h := C1_serialize_roundtrip ⟨1, 0, [222, 173, 190, 239]⟩ 16
    (by decide) (by decide) (by decide) (by decide)
  have h2 := h.2.2
  rw [show (be32_bytes (se_packet.mk 1 0 [222, 173, 190, 239]).ptype ++
        be32_bytes (se_packet.mk 1 0 [222, 173, 190, 239]).flags ++
        be32_bytes (se_packet.mk 1 0 [222, 173, 190, 239]).payload.length ++
        (se_packet.mk 1 0 [222, 173, 190, 239]).payload) =
      [0, 0, 0, 1, 0, 0, 0, 0, 0, 0, 0, 4, 222, 173, 190, 239] from by decide] at h2
  exact ⟨h.1.trans (by decide), h2⟩

/-- Claim C6, counterexample: a payload of 65,537 bytes — beyond the
alleged 65,536 cap — serializes successfully into a 65,549-byte buffer;
`se_packet_serialize` checks only the buffer bound, not the cap. -/
theorem C6_counterexample :
    se_packet_serialize ⟨SE_PACKET_TYPE_DATA, 0, List.replicate 65537 0⟩ 65549 ≠ none ∧
    65536 < (List.replicate (65537 : Nat) (0 : Nat)).length := by
  have key : ∀ l : List Nat, l.length = 65537 →
      se_packet_serialize ⟨SE_PACKET_TYPE_DATA, 0, l⟩ 65549 ≠ none ∧ 65536 < l.length := by
    intro l hl
    constructor
    · intro h
      have hlt : (65549 : Nat) < 12 + l.length :=
        (se_packet_serialize_eq_none_iff ⟨SE_PACKET_TYPE_DATA, 0, l⟩ 65549).mp h
      omega
    · omega
  exact key (List.replicate 65537 0) (List.length_replicate ..)

/-- Claim C6 as amended: serialization fails exactly when the output
buffer is smaller than `12 + payload length`; whenever the buffer is at
least that large the 12-byte header plus payload is emitted, with no cap
on the payload length itself. -/
theorem C6_amended (p : se_packet) (buffer_size : Nat) :
    (se_packet_serialize p buffer_size = none ↔
      buffer_size < 12 + p.payload.length) ∧
    (12 + p.payload.length ≤ buffer_size →
      se_packet_serialize p buffer_size =
        some (be32_bytes p.ptype ++ be32_bytes p.flags ++
              be32_bytes p.payload.length ++ p.payload)) := by
  constructor
  · exact se_packet_serialize_eq_none_iff p buffer_size
  · intro h
    simp [se_packet_serialize, Nat.not_lt.mpr h]

/-- Witness for C6 as amended: a 4-byte payload fails in an 8-byte
buffer and succeeds in a 16-byte one. -/
theorem C6_amended_witness :
    se_packet_serialize ⟨1, 0, [222, 173, 190, 239]⟩ 8 = none ∧
    se_packet_serialize ⟨1, 0, [222, 173, 190, 239]⟩ 16 =
      some (be32_bytes 1 ++ be32_bytes 0 ++ be32_bytes 4 ++ [222, 173, 190, 239]) := by
  refine ⟨(C6_amended ⟨1, 0, [222, 173, 190, 239]⟩ 8).1.mpr (by decide), ?_⟩
  exact (C6_amended ⟨1, 0, [222, 173, 190, 239]⟩ 16).2 (by decide)

/-- Claim C7: pushing any sequence that fits the capacity into an empty
queue succeeds entirely and popping that many packets returns the
sequence in FIFO order, leaving the queue empty; and a non-blocking push
onto a full queue reports failure (`none`) — the functional model
returns the queue untouched by construction. -/
theorem C7_queue_fifo :
    (∀ (q : se_packet_queue) (xs : List se_packet),
      q.items = [] → xs.length ≤ q.max_size →
      se_packet_queue_push_all q xs = some ⟨xs, q.max_size⟩ ∧
      se_packet_queue_pop_all ⟨xs, q.max_size⟩ xs.length = some (xs, ⟨[], q.max_size⟩)) ∧
    (∀ (q : se_packet_queue) (p : se_packet),
      q.items.length ≥ q.max_size → se_packet_queue_push q p = none) := by
  constructor
  · intro q xs hempty hfit
    constructor
    · have h := se_packet_queue_push_all_fits xs q (by simp [hempty]; omega)
      simpa [hempty] using h
    · exact se_packet_queue_pop_all_drains xs q.max_size
  · intro q p hfull
    simp [se_packet_queue_push, hfull]

/-- Witness for C7: the spec's capacity-2 scenario — pushing A then B
into an empty capacity-2 queue succeeds and pops back in order, and a
third non-blocking push onto the now-full queue returns the
would-block failure. -/
theorem C7_witness :
    se_packet_queue_push_all ⟨[], 2⟩ [⟨1, 0, [65]⟩, ⟨1, 0, [66]⟩] =
      some ⟨[⟨1, 0, [65]⟩, ⟨1, 0, [66]⟩], 2⟩ ∧
    se_packet_queue_pop_all ⟨[⟨1, 0, [65]⟩, ⟨1, 0, [66]⟩], 2⟩ 2 =
      some ([⟨1, 0, [65]⟩, ⟨1, 0, [66]⟩], ⟨[], 2⟩) ∧
    se_packet_queue_push ⟨[⟨1, 0, [65]⟩, ⟨1, 0, [66]⟩], 2⟩ ⟨1, 0, [67]⟩ = none := by
  have h := C7_queue_fifo.1 ⟨[], 2⟩ [⟨1, 0, [65]⟩, ⟨1, 0, [66]⟩] rfl (by decide)
  have h3 := C7_queue_fifo.2 ⟨[⟨1, 0, [65]⟩, ⟨1, 0, [66]⟩], 2⟩ ⟨1, 0, [67]⟩ (by decide)
  exact ⟨h.1, h.2, h3⟩

/-- Claim C4, counterexample: an input of 65,537 bytes is enqueued by
`se_connection_send_packet` as a single `DATA` packet of payload length
65,537 — it is not split into frames of at most 65,536 bytes. -/
theorem C4_counterexample :
    se_connection_send_packet (se_packet_queue_new 100) (List.replicate 65537 0) =
      (0, ⟨[⟨SE_PACKET_TYPE_DATA, 0, List.replicate 65537 0⟩], 100⟩) ∧
    (List.replicate (65537 : Nat) (0 : Nat)).length = 65537 ∧
    ¬ (65537 : Nat) ≤ 65536 := by
  refine ⟨?_, List.length_replicate .., by omega⟩
  have h := se_connection_send_packet_room (se_packet_queue_new 100)
    (List.replicate 65537 0) (by rw [List.length_replicate]; omega)
    (by show List.length [] < 100; decide)
  exact h

/-- Claim C4 as amended: `send` wraps its entire input in one `DATA`
frame and pushes it non-blocking; no splitting happens and no input is
rejected for its size — the only failures are an empty input and a full
send queue. -/
theorem C4_amended (send_queue : se_packet_queue) (data : List Nat)
    (hne : data.length ≠ 0) (hroom : send_queue.items.length < send_queue.max_size) :
    se_connection_send_packet send_queue data =
      (0, ⟨send_queue.items ++ [⟨SE_PACKET_TYPE_DATA, 0, data⟩], send_queue.max_size⟩) :=
  se_connection_send_packet_room send_queue data hne hroom

/-- Witness for C4 as amended: a 3-byte input enqueued whole. -/
theorem C4_amended_witness :
    se_connection_send_packet (se_packet_queue_new 100) [1, 2, 3] =
      (0, ⟨[⟨SE_PACKET_TYPE_DATA, 0, [1, 2, 3]⟩], 100⟩) :=
  C4_amended (se_packet_queue_new 100) [1, 2, 3] (by decide) (by decide)

/-- Claim C10: `connect` on a connection whose state is not
`DISCONNECTED` returns `INVALID_PARAM` and leaves the connection —
state, stored last error and stored parameters included — exactly as it
was; in particular the returned code is not recorded as the last
error. -/
theorem C10_connect_rejects_busy (conn : se_connection)
    (params : se_connection_params) (env : se_env)
    (h : conn.state ≠ SE_STATE_DISCONNECTED) :
    se_connection_connect conn params env = (SE_ERR_INVALID_PARAM, conn) ∧
    se_connection_get_last_error (se_connection_connect conn params env).2 =
      conn.last_error := by
  have hres : se_connection_connect conn params env = (SE_ERR_INVALID_PARAM, conn) := by
    unfold se_connection_connect
    rw [if_pos h]
  exact ⟨hres, by rw [hres]; rfl⟩

/-- Witness for C10: a connected connection rejects a second `connect`
untouched. -/
theorem C10_witness :
    se_connection_connect conn_connected test_params env_ok =
      (SE_ERR_INVALID_PARAM, conn_connected) :=
  (C10_connect_rejects_busy conn_connected test_params env_ok (by decide)).1

/-- Claim C2: when TCP and SSL setup succeed and the peer delivers a
64-byte hello response whose first four bytes are not `S T V P`,
`connect` fails with `PROTOCOL_MISMATCH`, the connection state is
`ERROR` with that code recorded, and the TCP socket is closed (and the
SSL context freed). -/
theorem C2_hello_signature_mismatch (conn : se_connection)
    (params : se_connection_params) (env : se_env) (fd : Nat)
    (hstate : conn.state = SE_STATE_DISCONNECTED)
    (htcp : env.tcp_fd = some fd)
    (hssl : env.ssl_ctx_ok = true)
    (hhello : env.send_hello_ok = true)
    (hsig : env.stream.getD 0 0 ≠ 83 ∨ env.stream.getD 1 0 ≠ 84 ∨
            env.stream.getD 2 0 ≠ 86 ∨ env.stream.getD 3 0 ≠ 80) :
    (se_connection_connect conn params env).1 = SE_ERR_PROTOCOL_MISMATCH ∧
    (se_connection_connect conn params env).2.state = SE_STATE_ERROR ∧
    (se_connection_connect conn params env).2.last_error = SE_ERR_PROTOCOL_MISMATCH ∧
    (se_connection_connect conn params env).2.socket_fd = none ∧
    (se_connection_connect conn params env).2.ssl_ctx = false := by
  have hres : se_connection_connect conn params env =
      connect_failed_result
        {conn with state := SE_STATE_CONNECTING, params := params,
                   socket_fd := some fd, ssl_ctx := true} := by
    unfold se_connection_connect
    rw [if_neg (by simp [hstate]), htcp]
    dsimp only
    rw [if_neg (by simp [hssl])]
    rw [if_neg (by simp [hhello])]
    rw [se_protocol_recv_hello_mismatch _ _ hsig]
  rw [hres]
  simp [connect_failed_result]

/-- Witness for C2: the spec's `X T V P` response observed on a fresh
connection. -/
theorem C2_witness :
    (se_connection_connect test_conn test_params env_xtvp).1 = SE_ERR_PROTOCOL_MISMATCH ∧
    (se_connection_connect test_conn test_params env_xtvp).2.state = SE_STATE_ERROR ∧
    (se_connection_connect test_conn test_params env_xtvp).2.socket_fd = none := by
  have h := C2_hello_signature_mismatch test_conn test_params env_xtvp 7
    (by decide) (by decide) (by decide) (by decide) (by decide)
  exact ⟨h.1, h.2.1, h.2.2.2.1⟩

/-- Claim C9: `disconnect` is idempotent — two successive calls on a
connected connection end in `DISCONNECTED` having written at most one
`DISCONNECT` frame in total, and a call on a connection already
`DISCONNECTED` or `DISCONNECTING` is a no-op that writes no frame and
changes no state. -/
theorem C9_disconnect_idempotent :
    (∀ conn : se_connection, conn.state = SE_STATE_CONNECTED →
      (se_connection_disconnect (se_connection_disconnect conn).1).1.state =
        SE_STATE_DISCONNECTED ∧
      ((se_connection_disconnect conn).2 ++
        (se_connection_disconnect (se_connection_disconnect conn).1).2).length ≤ 1) ∧
    (∀ conn : se_connection,
      conn.state = SE_STATE_DISCONNECTED ∨ conn.state = SE_STATE_DISCONNECTING →
      se_connection_disconnect conn = (conn, [])) := by
  constructor
  · intro conn h
    have h1 : ¬ (conn.state = SE_STATE_DISCONNECTED ∨
        conn.state = SE_STATE_DISCONNECTING) := by
      rw [h]
      simp [SE_STATE_CONNECTED, SE_STATE_DISCONNECTED, SE_STATE_DISCONNECTING]
    rw [se_connection_disconnect_active conn h1]
    dsimp only
    rw [se_connection_disconnect_noop _ (Or.inl rfl)]
    refine ⟨rfl, ?_⟩
    cases hssl : conn.ssl_ctx <;> simp [hssl]
  · intro conn h
    exact se_connection_disconnect_noop conn h

/-- Witness for C9: two disconnects of the steady-state connection, and
a no-op disconnect of a fresh one. -/
theorem C9_witness :
    ((se_connection_disconnect (se_connection_disconnect conn_connected).1).1.state =
        SE_STATE_DISCONNECTED ∧
      ((se_connection_disconnect conn_connected).2 ++
        (se_connection_disconnect (se_connection_disconnect conn_connected).1).2).length ≤ 1) ∧
    se_connection_disconnect test_conn = (test_conn, []) :=
  ⟨C9_disconnect_idempotent.1 conn_connected (by decide),
   C9_disconnect_idempotent.2 test_conn (Or.inl (by decide))⟩

/-- Claim C5, counterexample: after a connect that fails with
`CONNECT_FAILED` and a disconnect, a subsequent fully successful connect
returns `SUCCESS` and reaches `CONNECTED` — yet `get_last_error` still
reads `CONNECT_FAILED`, not `SUCCESS`: no successful connect ever clears
the sticky error. -/
theorem C5_counterexample :
    (se_connection_connect test_conn test_params env_fail).1 = SE_ERR_CONNECT_FAILED ∧
    (se_connection_disconnect
        (se_connection_connect test_conn test_params env_fail).2).1.state =
      SE_STATE_DISCONNECTED ∧
    (se_connection_connect
        (se_connection_disconnect
          (se_connection_connect test_conn test_params env_fail).2).1
        test_params env_ok).1 = SE_ERR_SUCCESS ∧
    (se_connection_connect
        (se_connection_disconnect
          (se_connection_connect test_conn test_params env_fail).2).1
        test_params env_ok).2.state = SE_STATE_CONNECTED ∧
    se_connection_get_last_error
      (se_connection_connect
        (se_connection_disconnect
          (se_connection_connect test_conn test_params env_fail).2).1
        test_params env_ok).2 = SE_ERR_CONNECT_FAILED ∧
    SE_ERR_CONNECT_FAILED ≠ SE_ERR_SUCCESS := by
  decide

/-- Claim C5 as amended: the last-error value is sticky, but nothing
clears it — every failed connect (other than the busy-state rejection,
which records nothing) stores its error code, a successful connect
leaves the stored value untouched rather than resetting it to
`SUCCESS`, disconnect never modifies it, and `get_last_error` returns
the stored value. -/
theorem C5_amended (conn : se_connection) (params : se_connection_params) (env : se_env) :
    ((se_connection_connect conn params env).1 = SE_ERR_SUCCESS →
      (se_connection_connect conn params env).2.last_error = conn.last_error) ∧
    ((se_connection_connect conn params env).1 ≠ SE_ERR_SUCCESS →
     (se_connection_connect conn params env).1 ≠ SE_ERR_INVALID_PARAM →
      (se_connection_connect conn params env).2.last_error =
        (se_connection_connect conn params env).1) ∧
    (∀ c : se_connection, (se_connection_disconnect c).1.last_error = c.last_error) ∧
    se_connection_get_last_error conn = conn.last_error := by
  have main :
      ((se_connection_connect conn params env).1 = SE_ERR_SUCCESS →
        (se_connection_connect conn params env).2.last_error = conn.last_error) ∧
      ((se_connection_connect conn params env).1 ≠ SE_ERR_SUCCESS →
       (se_connection_connect conn params env).1 ≠ SE_ERR_INVALID_PARAM →
        (se_connection_connect conn params env).2.last_error =
          (se_connection_connect conn params env).1) := by

    unfold se_connection_connect
    by_cases hstate : conn.state ≠ SE_STATE_DISCONNECTED
    · rw [if_pos hstate]
      exact ⟨fun h1 => absurd (show SE_ERR_INVALID_PARAM = SE_ERR_SUCCESS from h1) (by decide),
             fun h1 h2 => absurd rfl h2⟩
    · rw [if_neg hstate]
      try dsimp only
      cases htcp : env.tcp_fd with
      | none =>
        try dsimp only
        exact ⟨fun h1 => absurd (show SE_ERR_CONNECT_FAILED = SE_ERR_SUCCESS from h1) (by decide),
               fun _ _ => rfl⟩
      | some fd =>
        try dsimp only
        by_cases hssl : env.ssl_ctx_ok
        case neg =>
          rw [if_pos (by simp [hssl])]
          exact ⟨fun h1 => absurd (show SE_ERR_OUT_OF_MEMORY = SE_ERR_SUCCESS from h1) (by decide),
                 fun _ _ => rfl⟩
        case pos =>
          rw [if_neg (by simp [hssl])]
          try dsimp only
          by_cases hhello : env.send_hello_ok
          case neg =>
            rw [if_pos (by simp [hhello])]
            exact ⟨fun h1 => absurd (show SE_ERR_PROTOCOL_MISMATCH = SE_ERR_SUCCESS from h1) (by decide),
                   fun _ _ => rfl⟩
          case pos =>
            rw [if_neg (by simp [hhello])]
            cases hh : se_protocol_recv_hello
                {conn with state := SE_STATE_CONNECTING, params := params,
                           socket_fd := some fd, ssl_ctx := true} env.stream with
            | none =>
              try dsimp only
              exact ⟨fun h1 => absurd (show SE_ERR_PROTOCOL_MISMATCH = SE_ERR_SUCCESS from h1) (by decide),
                     fun _ _ => rfl⟩
            | some pr1 =>
              obtain ⟨conn4, rest1⟩ := pr1
              try dsimp only
              by_cases hauth : env.send_auth_ok
              case neg =>
                rw [if_pos (by simp [hauth])]
                exact ⟨fun h1 => absurd (show SE_ERR_PROTOCOL_MISMATCH = SE_ERR_SUCCESS from h1) (by decide),
                       fun _ _ => rfl⟩
              case pos =>
                rw [if_neg (by simp [hauth])]
                cases ha : se_protocol_recv_auth_response rest1 with
                | none =>
                  try dsimp only
                  exact ⟨fun h1 => absurd (show SE_ERR_AUTH_FAILED = SE_ERR_SUCCESS from h1) (by decide),
                         fun _ _ => rfl⟩
                | some rest2 =>
                  try dsimp only
                  by_cases hdh : env.send_dhcp_ok
                  case neg =>
                    rw [if_pos (by simp [hdh])]
                    exact ⟨fun h1 => absurd (show SE_ERR_PROTOCOL_MISMATCH = SE_ERR_SUCCESS from h1) (by decide),
                           fun _ _ => rfl⟩
                  case pos =>
                    rw [if_neg (by simp [hdh])]
                    cases hd : se_protocol_recv_dhcp_response conn4 rest2 with
                    | none =>
                      try dsimp only
                      exact ⟨fun h1 => absurd (show SE_ERR_DHCP_FAILED = SE_ERR_SUCCESS from h1) (by decide),
                             fun _ _ => rfl⟩
                    | some pr2 =>
                      obtain ⟨conn5, rest3⟩ := pr2
                      try dsimp only
                      refine ⟨fun _ => ?_, fun h1 _ => absurd rfl h1⟩
                      exact (se_protocol_recv_dhcp_last_error _ _ _ _ hd).trans
                        ((se_protocol_recv_hello_last_error _ _ _ _ hh).trans rfl)
  exact ⟨main.1, main.2, se_connection_disconnect_last_error, rfl⟩

/-- Witness for C5 as amended: a successful connect on a connection
still carrying `CONNECT_FAILED` leaves that code in place. -/
theorem C5_amended_witness :
    (se_connection_connect conn_err2 test_params env_ok).1 = SE_ERR_SUCCESS ∧
    (se_connection_connect conn_err2 test_params env_ok).2.last_error =
      conn_err2.last_error :=
  ⟨by decide, (C5_amended conn_err2 test_params env_ok).1 (by decide)⟩

/-- The DHCP receive phase on a well-formed frame with a payload of at
least 24 bytes stores the four leading big-endian words. -/
theorem se_protocol_recv_dhcp_spec (conn : se_connection) (stream : List Nat)
    (payload_len : Nat)
    (hssl : conn.ssl_ctx = true)
    (hlen12 : 12 ≤ stream.length)
    (hty : be32_of stream = SE_PACKET_TYPE_DHCP_RESPONSE)
    (hpl : be32_of (stream.drop 8) = payload_len)
    (h24 : 24 ≤ payload_len)
    (hrest : payload_len ≤ (stream.drop 12).length) :
    se_protocol_recv_dhcp_response conn stream =
      some ({conn with net_config :=
              {conn.net_config with
                client_ip := be32_of ((stream.drop 12).take payload_len),
                subnet_mask := be32_of (((stream.drop 12).take payload_len).drop 4),
                gateway := be32_of (((stream.drop 12).take payload_len).drop 8),
                dns1 := be32_of (((stream.drop 12).take payload_len).drop 12)}},
            (stream.drop 12).drop payload_len) := by
  unfold se_protocol_recv_dhcp_response
  rw [if_neg (by simp [hssl])]
  rw [if_neg (by omega)]
  dsimp only
  rw [hty, hpl]
  rw [if_neg (by simp)]
  rw [if_pos (by omega)]
  rw [if_neg (by omega)]

/-- Claim C3, counterexample: a `DHCP_RESPONSE` frame whose payload is
exactly the 16 bytes `0A 00 00 02 FF FF FF 00 0A 00 00 01 08 08 08 08`
— which hold the four addresses of the claim — is accepted, but the
handshake driver stores nothing: `payload_len < 24`, so the stored
client IP stays 0 instead of 10.0.0.2 (= 167772162). -/
theorem C3_counterexample :
    se_protocol_recv_dhcp_response conn_ssl
        ([0, 0, 0, 0x21, 0, 0, 0, 0, 0, 0, 0, 16] ++
         [10, 0, 0, 2, 255, 255, 255, 0, 10, 0, 0, 1, 8, 8, 8, 8]) =
      some (conn_ssl, [10, 0, 0, 2, 255, 255, 255, 0, 10, 0, 0, 1, 8, 8, 8, 8]) ∧
    conn_ssl.net_config.client_ip = 0 ∧
    (0 : Nat) ≠ 167772162 := by
  decide

/-- Claim C3 as amended: for every `DHCP_RESPONSE` frame whose payload
length is at least 24 (the code's threshold) and whose first 16 payload
bytes hold the four big-endian IPv4 addresses, the handshake driver
stores exactly those four values — client IP, subnet mask, gateway,
primary DNS — in the connection's network configuration. -/
theorem C3_amended (conn : se_connection) (flags : Nat) (payload rest : List Nat)
    (hssl : conn.ssl_ctx = true) (hflags : flags < 2 ^ 32)
    (hlen32 : payload.length < 2 ^ 32) (hlen : 24 ≤ payload.length) :
    se_protocol_recv_dhcp_response conn
        (be32_bytes SE_PACKET_TYPE_DHCP_RESPONSE ++ be32_bytes flags ++
         be32_bytes payload.length ++ payload ++ rest) =
      some ({conn with net_config :=
              {conn.net_config with
                client_ip := be32_of payload,
                subnet_mask := be32_of (payload.drop 4),
                gateway := be32_of (payload.drop 8),
                dns1 := be32_of (payload.drop 12)}}, rest) := by
  have hd12 : (be32_bytes SE_PACKET_TYPE_DHCP_RESPONSE ++ be32_bytes flags ++
      be32_bytes payload.length ++ payload ++ rest).drop 12 = payload ++ rest := by
    simp [be32_bytes]
  have hlen12 : 12 ≤ (be32_bytes SE_PACKET_TYPE_DHCP_RESPONSE ++ be32_bytes flags ++
      be32_bytes payload.length ++ payload ++ rest).length := by
    simp [be32_bytes]
  have hty : be32_of (be32_bytes SE_PACKET_TYPE_DHCP_RESPONSE ++ be32_bytes flags ++
      be32_bytes payload.length ++ payload ++ rest) = SE_PACKET_TYPE_DHCP_RESPONSE := by
    simp [be32_bytes, be32_of, SE_PACKET_TYPE_DHCP_RESPONSE,
      List.getD_cons_zero, List.getD_cons_succ]
  have hpl : be32_of ((be32_bytes SE_PACKET_TYPE_DHCP_RESPONSE ++ be32_bytes flags ++
      be32_bytes payload.length ++ payload ++ rest).drop 8) = payload.length := by
    simp [be32_bytes, be32_of, List.getD_cons_zero, List.getD_cons_succ,
      List.drop_succ_cons]
    omega
  have hrest : payload.length ≤ ((be32_bytes SE_PACKET_TYPE_DHCP_RESPONSE ++
      be32_bytes flags ++ be32_bytes payload.length ++ payload ++ rest).drop 12).length := by
    rw [hd12]
    simp
  rw [se_protocol_recv_dhcp_spec conn _ payload.length hssl hlen12 hty hpl hlen hrest]
  rw [hd12, List.take_left, List.drop_left]

/-- Witness for C3 as amended: the spec's example payload padded to 24
bytes yields client 10.0.0.2, mask 255.255.255.0, gateway 10.0.0.1,
DNS 8.8.8.8. -/
theorem C3_amended_witness :
    (se_protocol_recv_dhcp_response conn_ssl
        (be32_bytes SE_PACKET_TYPE_DHCP_RESPONSE ++ be32_bytes 0 ++
         be32_bytes payload24.length ++ payload24 ++ [])).map
      (fun r => (r.1.net_config.client_ip, r.1.net_config.subnet_mask,
                 r.1.net_config.gateway, r.1.net_config.dns1)) =
      some (167772162, 4294967040, 167772161, 134744072) := by
  rw [C3_amended conn_ssl 0 payload24 [] (by decide) (by decide) (by decide) (by decide)]
  decide

/-- Claim C8, counterexample: a header announcing a 4-byte payload
followed by only 2 payload bytes makes the payload read fail with the
cancellation flag clear, yet the task exits leaving the state
`CONNECTED` and the last error `SUCCESS` — not `ERROR` with
`NETWORK_ERROR` as the claim requires for every failed read. -/
theorem C8_counterexample :
    (se_recv_loop 3 [0, 0, 0, 1, 0, 0, 0, 0, 0, 0, 0, 4, 170, 187]
        conn_connected).2.2 = RecvExit.payloadFail ∧
    (se_recv_loop 3 [0, 0, 0, 1, 0, 0, 0, 0, 0, 0, 0, 4, 170, 187]
        conn_connected).1.state = SE_STATE_CONNECTED ∧
    (se_recv_loop 3 [0, 0, 0, 1, 0, 0, 0, 0, 0, 0, 0, 4, 170, 187]
        conn_connected).1.last_error = SE_ERR_SUCCESS ∧
    SE_STATE_CONNECTED ≠ SE_STATE_ERROR := by
  decide

/-- Claim C8 as amended: in the ingress task a read failure while
reading the 12 header bytes sets state `ERROR` with `NETWORK_ERROR` and
exits, but a read failure while reading the payload bytes exits the
task without touching the connection state or last error. -/
theorem C8_amended (fuel : Nat) :
    ∀ (stream : List Nat) (conn : se_connection),
    ((se_recv_loop fuel stream conn).2.2 = RecvExit.headerFail →
      (se_recv_loop fuel stream conn).1.state = SE_STATE_ERROR ∧
      (se_recv_loop fuel stream conn).1.last_error = SE_ERR_NETWORK_ERROR) ∧
    ((se_recv_loop fuel stream conn).2.2 = RecvExit.payloadFail →
      (se_recv_loop fuel stream conn).1.state = conn.state ∧
      (se_recv_loop fuel stream conn).1.last_error = conn.last_error) := by
  induction fuel with
  | zero =>
    intro stream conn
    simp [se_recv_loop]
  | succ n ih =>
    intro stream conn
    simp only [se_recv_loop]
    by_cases hrun : conn.threads_running
    case neg =>
      rw [if_pos (by simp [hrun])]
      constructor
      · intro h; simp at h
      · intro h; simp at h
    case pos =>
      rw [if_neg (by simp [hrun])]
      by_cases hlen : stream.length < 12
      case pos =>
        rw [if_pos hlen]
        constructor
        · intro _; exact ⟨rfl, rfl⟩
        · intro h; simp at h
      case neg =>
        rw [if_neg hlen]
        try dsimp only
        by_cases hpl : (stream.drop 12).length < be32_of (stream.drop 8)
        case pos =>
          rw [if_pos hpl]
          constructor
          · intro h; simp at h
          · intro _; exact ⟨rfl, rfl⟩
        case neg =>
          rw [if_neg hpl]
          by_cases hty : be32_of stream = SE_PACKET_TYPE_DATA
          case pos =>
            rw [if_pos hty]
            cases htun : conn.tun_fd with
            | some fd =>
              try dsimp only
              constructor
              · intro h; exact (ih _ _).1 h
              · intro h; exact (ih _ _).2 h
            | none => exact ih _ _
          case neg =>
            rw [if_neg hty]
            by_cases hka : be32_of stream = SE_PACKET_TYPE_KEEPALIVE
            case pos =>
              rw [if_pos hka]
              exact ih _ _
            case neg =>
              rw [if_neg hka]
              by_cases hdc : be32_of stream = SE_PACKET_TYPE_DISCONNECT
              case pos =>
                rw [if_pos hdc]
                constructor
                · intro h; simp at h
                · intro h; simp at h
              case neg =>
                rw [if_neg hdc]
                exact ih _ _

/-- Witness for C8 as amended: an empty stream (the first header read
returns 0) drives the steady-state connection to `ERROR` /
`NETWORK_ERROR`. -/
theorem C8_amended_witness :
    (se_recv_loop 2 [] conn_connected).2.2 = RecvExit.headerFail ∧
    (se_recv_loop 2 [] conn_connected).1.state = SE_STATE_ERROR ∧
    (se_recv_loop 2 [] conn_connected).1.last_error = SE_ERR_NETWORK_ERROR := by
  have h := (C8_amended 2 [] conn_connected).1 (by decide)
  exact ⟨by decide, h.1, h.2⟩

end SoftEther
